import Mathlib

/-!
Shallow embedding of `src/addons/calendar/pages/edit-event/edit-event.page.ts`
(the calendar edit-event screen of a Moodle-based mobile client), together with
theorems settling the spec's claims about it.

Conventions of the embedding:
* JavaScript falsiness of numeric ids (`''`, `0`, `undefined`) is modelled by
  `0` for plain `Nat` fields and by `Option Nat` with `getD 0 = 0` where the
  source field is optional.
* Datetime strings produced by `CoreTimeUtils.toDatetimeFormat` are modelled by
  `DatetimeStr`, identified by the millisecond instant they denote;
  `CoreTimeUtils.convertToTimestamp` is its inverse in seconds.  Those wrappers
  live outside the repository slice and are modelled from the spec.
* The wall clock (`Date.now()` and the no-argument `toDatetimeFormat()`) is an
  explicit `nowMs` parameter.
-/

namespace AddonCalendarEditEvent

/-- The calendar event types (`AddonCalendarEventType` in the source). -/
inductive AddonCalendarEventType
  | course
  | category
  | group
  | user
  | site
deriving DecidableEq, Repr, Fintype, Inhabited

/-- A datetime string as produced by `CoreTimeUtils.toDatetimeFormat`.
Modelled from the spec: `CoreTimeUtils` is an external collaborator; a
formatted string is identified by the millisecond instant it denotes. -/
structure DatetimeStr where
  ms : Nat
deriving DecidableEq, Repr

/-- `CoreTimeUtils.toDatetimeFormat(ms)`: format a millisecond timestamp. -/
def toDatetimeFormat (ms : Nat) : DatetimeStr := ⟨ms⟩

/-- `CoreTimeUtils.convertToTimestamp(date, true)`: a datetime string back to
a timestamp in seconds. -/
def convertToTimestamp (d : DatetimeStr) : Nat := d.ms / 1000

/-- JavaScript `a || b` on numbers (`0` is falsy). -/
def jsOrNat (a b : Nat) : Nat := if a ≠ 0 then a else b

/-- Value of the digit list read in base 10. -/
def digitsToNat (ds : List Char) : Nat :=
  ds.foldl (fun acc c => acc * 10 + (c.toNat - 48)) 0

/-- JavaScript `parseInt(s, 10)`: skip leading whitespace, read an optional
sign and then the longest digit prefix; `none` models `NaN` (no digits). -/
def parseIntJS (s : String) : Option Int :=
  let cs := s.data.dropWhile fun c => c == ' ' || c == '\t' || c == '\n' || c == '\r'
  let signed : Int × List Char :=
    match cs with
    | '-' :: rest => (-1, rest)
    | '+' :: rest => (1, rest)
    | _ => (1, cs)
  let ds := signed.2.takeWhile Char.isDigit
  if ds.isEmpty then none else some (signed.1 * (digitsToNat ds : Int))

/-- The state of the screen's reactive form (`this.form.value`): one field per
control added in the constructor and in `ngOnInit`.  `eventtype` is `none`
while the control still holds its initial `''`; empty id fields hold `0`. -/
structure FormState where
  name : String
  eventtype : Option AddonCalendarEventType
  timestart : DatetimeStr
  categoryid : Nat
  courseid : Nat
  groupcourseid : Nat
  groupid : Nat
  description : Option String
  location : Option String
  duration : Nat
  timedurationuntil : DatetimeStr
  timedurationminutes : String
  «repeat» : Bool
  repeats : Nat
  repeateditall : Nat
deriving DecidableEq, Repr

/-- An offline draft as stored in the local database
(`AddonCalendarOfflineEventDBRecord`); optional numeric columns are `Option`. -/
structure AddonCalendarOfflineEventDBRecord where
  name : String
  timestart : Nat
  eventtype : AddonCalendarEventType
  categoryid : Option Nat
  courseid : Nat
  groupid : Option Nat
  description : Option String
  location : Option String
  duration : Nat
  timedurationuntil : Option Nat
  timedurationminutes : Option Nat
  «repeat» : Option Nat
  repeats : Option Nat
  repeateditall : Option Nat
deriving DecidableEq, Repr

/-- A server-confirmed event (`AddonCalendarEvent`), restricted to the fields
`loadEventData` reads; `courseId` models `onlineEvent.course?.id`. -/
structure AddonCalendarEvent where
  name : String
  timestart : Nat
  timeduration : Nat
  eventtype : AddonCalendarEventType
  categoryid : Option Nat
  courseId : Option Nat
  groupid : Option Nat
  description : Option String
  location : Option String
  repeatid : Option Nat
  eventcount : Option Nat
deriving DecidableEq, Repr

/-- The argument of `loadEventData` together with its `isOffline` flag: the
flag selects which cast (`offlineEvent` / `onlineEvent`) is the real shape. -/
inductive EventSource
  | offline (r : AddonCalendarOfflineEventDBRecord)
  | online (e : AddonCalendarEvent)
deriving DecidableEq, Repr

/-- `loadEventData(event, isOffline)`: map a fetched event or draft onto the
form controls.  `nowMs` is the wall clock used by `Date.now()` and by the
no-argument `toDatetimeFormat()`. -/
def loadEventData (nowMs : Nat) (src : EventSource) (form : FormState) : FormState :=
  match src with
  | .offline r =>
    { form with
      name := r.name
      timestart := toDatetimeFormat (r.timestart * 1000)
      eventtype := some r.eventtype
      categoryid := r.categoryid.getD 0
      courseid := r.courseid
      groupcourseid := r.courseid
      groupid := r.groupid.getD 0
      description := r.description
      location := r.location
      duration := r.duration
      timedurationuntil := toDatetimeFormat (jsOrNat (r.timedurationuntil.getD 0 * 1000) nowMs)
      timedurationminutes :=
        match r.timedurationminutes with
        | some m => if m ≠ 0 then toString m else ""
        | none => ""
      «repeat» := r.«repeat».getD 0 ≠ 0
      repeats := jsOrNat (r.repeats.getD 0) 1
      repeateditall := jsOrNat (r.repeateditall.getD 0) 1 }
  | .online e =>
    { form with
      name := e.name
      timestart := toDatetimeFormat (e.timestart * 1000)
      eventtype := some e.eventtype
      categoryid := e.categoryid.getD 0
      courseid := e.courseId.getD 0
      groupcourseid := e.courseId.getD 0
      groupid := e.groupid.getD 0
      description := e.description
      location := e.location
      duration := if e.timeduration > 0 then 1 else 0
      timedurationuntil :=
        if e.timeduration > 0 then toDatetimeFormat ((e.timestart + e.timeduration) * 1000)
        else toDatetimeFormat nowMs
      timedurationminutes := ""
      «repeat» := e.repeatid.getD 0 ≠ 0
      repeats := jsOrNat (e.eventcount.getD 0) 1
      repeateditall := 1 }

/-- Condition `isNaN(timeDurationMinutes) || timeDurationMinutes < 1` of the
sixth validation rule. -/
def minutesInvalid (p : Option Int) : Bool :=
  match p with
  | none => true
  | some n => decide (n < 1)

/-- The validation chain at the top of `submit()`: the first failing rule's
message key, `none` when every rule passes.  `timeStartDate` and
`timeUntilDate` of the source are the `convertToTimestamp` applications. -/
def validate (fd : FormState) : Option String :=
  if fd.eventtype = some .course ∧ fd.courseid = 0 then some "core.selectacourse"
  else if fd.eventtype = some .group ∧ fd.groupcourseid = 0 then some "core.selectacourse"
  else if fd.eventtype = some .group ∧ fd.groupid = 0 then some "core.selectagroup"
  else if fd.eventtype = some .category ∧ fd.categoryid = 0 then some "core.selectacategory"
  else if fd.duration = 1 ∧ convertToTimestamp fd.timestart > convertToTimestamp fd.timedurationuntil then
    some "addon.calendar.invalidtimedurationuntil"
  else if fd.duration = 2 ∧ minutesInvalid (parseIntJS fd.timedurationminutes) then
    some "addon.calendar.invalidtimedurationminutes"
  else none

/-- The payload sent to the remote submit operation
(`AddonCalendarSubmitCreateUpdateFormDataWSParams`); `none` on an `Option`
field means the key is absent from the payload. -/
structure SubmitPayload where
  name : String
  eventtype : Option AddonCalendarEventType
  timestart : Nat
  descriptionText : String
  descriptionFormat : Nat
  location : Option String
  duration : Nat
  «repeat» : Bool
  courseid : Option Nat
  groupcourseid : Option Nat
  groupid : Option Nat
  categoryid : Option Nat
  timedurationuntil : Option Nat
  timedurationminutes : Option String
  repeats : Option Nat
  repeatid : Option Nat
  repeateditall : Option Nat
deriving DecidableEq, Repr

/-- The payload construction in `submit()` (lines after the validation chain),
with `eventRepeatId` the page's `this.eventRepeatId`. -/
def buildPayload (fd : FormState) (eventRepeatId : Option Nat) : SubmitPayload :=
  { name := fd.name
    eventtype := fd.eventtype
    timestart := convertToTimestamp fd.timestart
    descriptionText := fd.description.getD ""
    descriptionFormat := 1
    location := fd.location
    duration := fd.duration
    «repeat» := fd.«repeat»
    courseid := if fd.eventtype = some .course then some fd.courseid else none
    groupcourseid := if fd.eventtype = some .group then some fd.groupcourseid else none
    groupid := if fd.eventtype = some .group then some fd.groupid else none
    categoryid := if fd.eventtype = some .category then some fd.categoryid else none
    timedurationuntil :=
      if fd.duration = 1 then some (convertToTimestamp fd.timedurationuntil) else none
    timedurationminutes := if fd.duration = 2 then some fd.timedurationminutes else none
    repeats := if fd.«repeat» then some fd.repeats else none
    repeatid := if eventRepeatId.getD 0 ≠ 0 then eventRepeatId else none
    repeateditall := if eventRepeatId.getD 0 ≠ 0 then some fd.repeateditall else none }

/-- Effect of one `unblockSync()` call: the event ids passed to
`CoreSync.unblockOperation` (one call when `this.eventId` is truthy). -/
def unblockSyncCalls (eventId : Option Nat) : List Nat :=
  match eventId with
  | some id => if id ≠ 0 then [id] else []
  | none => []

/-- The application-level notifications `returnToList` emits over the event
bus, by constant name. -/
def returnToListEvents (eventId : Option Nat) (createdEvent : Option Nat) : List String :=
  if eventId.getD 0 > 0 then ["EDIT_EVENT_EVENT"]
  else
    match createdEvent with
    | some _ => ["NEW_EVENT_EVENT"]
    | none => ["NEW_EVENT_DISCARDED_EVENT"]

/-- Outcome of the awaited `AddonCalendar.submitEvent` call: resolution with a
`sent` flag and the resulting event id, or rejection. -/
inductive RemoteOutcome
  | ok (sent : Bool) (eventId : Nat)
  | err
deriving DecidableEq, Repr

/-- Everything observable that one `submit()` run produces. -/
structure SubmitResult where
  shownError : Option String
  payload : Option SubmitPayload
  remoteCalled : Bool
  triggeredEvents : List String
  unblockCalls : List Nat
  form : FormState
deriving DecidableEq, Repr

/-- One run of `submit()`: validate, build the payload, call the remote
operation, and on resolution run `returnToList` (which unblocks the sync lock,
emits a notification and either resets the form — split view — or navigates
back leaving the form untouched). -/
def submit (eventId : Option Nat) (eventRepeatId : Option Nat) (splitView : Bool)
    (originalData : FormState) (fd : FormState) (remote : RemoteOutcome) : SubmitResult :=
  match validate fd with
  | some e =>
    { shownError := some e
      payload := none
      remoteCalled := false
      triggeredEvents := []
      unblockCalls := []
      form := fd }
  | none =>
    let data := buildPayload fd eventRepeatId
    match remote with
    | .err =>
      { shownError := some "Error sending data."
        payload := some data
        remoteCalled := true
        triggeredEvents := []
        unblockCalls := []
        form := fd }
    | .ok _ newEventId =>
      { shownError := none
        payload := some data
        remoteCalled := true
        triggeredEvents := "FORM_SUBMITTED" :: returnToListEvents eventId (some newEventId)
        unblockCalls := unblockSyncCalls eventId
        form := if splitView then originalData else fd }

/-- The sync-unblock calls of a run where `submit()` completes and
`ngOnDestroy` fires afterwards; `this.eventId` is never reassigned, so
`ngOnDestroy`'s `unblockSync()` sees the same id. -/
def submitThenDestroyUnblockCalls (eventId : Option Nat) (eventRepeatId : Option Nat)
    (splitView : Bool) (originalData fd : FormState) (remote : RemoteOutcome) : List Nat :=
  (submit eventId eventRepeatId splitView originalData fd remote).unblockCalls ++
    unblockSyncCalls eventId

/-- The sync-unblock calls of a run where the screen is destroyed mid-flight:
`ngOnDestroy` fires while `submitEvent` is pending, and `returnToList` still
runs when the promise resolves. -/
def destroyThenSubmitUnblockCalls (eventId : Option Nat) (eventRepeatId : Option Nat)
    (splitView : Bool) (originalData fd : FormState) (remote : RemoteOutcome) : List Nat :=
  unblockSyncCalls eventId ++
    (submit eventId eventRepeatId splitView originalData fd remote).unblockCalls

/-- A shape-annotated course record: `contacts` says whether the object
carries the `contacts` key (the searched-course shape returned by
`getCoursesByField`, as opposed to the enrolled-course shape). -/
structure CourseRecord where
  id : Nat
  fullname : String
  contacts : Bool
deriving DecidableEq, Repr

/-- Insert a course into a list sorted by `fullname`. -/
def insertByName (c : CourseRecord) : List CourseRecord → List CourseRecord
  | [] => [c]
  | d :: ds => if c.fullname ≤ d.fullname then c :: d :: ds else d :: insertByName c ds

/-- The `courses.sort` call at the end of `fetchCourses`: order by name. -/
def sortByName (l : List CourseRecord) : List CourseRecord := l.foldr insertByName []

/-- The guard `courses.length < 0` at the top of `fetchCourses`. -/
def emptyGuardTriggers (courses : List CourseRecord) : Bool :=
  decide (courses.length < 0)

/-- Result of `fetchCourses`: the course list stored on the page, or a thrown
`TypeError` (`fault`) from evaluating `'contacts' in courses[0]` when
`courses[0]` is `undefined`. -/
inductive FetchCoursesResult
  | ok (courses : List CourseRecord)
  | fault
deriving DecidableEq, Repr

/-- `fetchCourses()`: early return on the (dead) `length < 0` guard, removal
of the site home when `showAll`, the `'contacts' in courses[0]` shape test,
then the sort.  The fault arms are the reads of `courses[0]` on an empty
list. -/
def fetchCourses (showAll : Bool) (siteHomeId : Nat)
    (fetched : List CourseRecord) : FetchCoursesResult :=
  if emptyGuardTriggers fetched then .ok []
  else
    let filtered : Option (List CourseRecord) :=
      if showAll then
        match fetched with
        | [] => none
        | _ :: _ => some (fetched.filter fun course => course.id ≠ siteHomeId)
      else some fetched
    match filtered with
    | none => .fault
    | some courses =>
      match courses with
      | [] => .fault
      | _ :: _ => .ok (sortByName courses)

/-- The allowed-event-type flags returned by
`AddonCalendar.getAllowedEventTypes` (`this.types`). -/
structure AllowedEventTypes where
  course : Bool
  category : Bool
  group : Bool
  user : Bool
  site : Bool
deriving DecidableEq, Repr, Fintype

/-- Modelled from the spec: `AddonCalendarHelper.getEventTypeOptions` is not
part of the repository slice; the data loader "fetches allowed event types",
so the options list is modelled as one option per allowed type, in a fixed
order. -/
def getEventTypeOptions (t : AllowedEventTypes) : List AddonCalendarEventType :=
  (if t.user then [AddonCalendarEventType.user] else [])
    ++ (if t.group then [AddonCalendarEventType.group] else [])
    ++ (if t.course then [AddonCalendarEventType.course] else [])
    ++ (if t.category then [AddonCalendarEventType.category] else [])
    ++ (if t.site then [AddonCalendarEventType.site] else [])

/-- Outcome of `fetchData`'s event-type initialization: the type the control
ends up holding, or the thrown `nopermissiontoupdatecalendar` error. -/
inductive FetchDataResult
  | ok (selected : AddonCalendarEventType)
  | noPermissionError
deriving DecidableEq, Repr

/-- The event-type initialization in `fetchData`: throw when no type is
allowed; otherwise, if the control is still empty, select `COURSE` when
allowed and the first option otherwise. -/
def fetchDataTypeInit (t : AllowedEventTypes)
    (current : Option AddonCalendarEventType) : FetchDataResult :=
  match getEventTypeOptions t with
  | [] => .noPermissionError
  | first :: _ =>
    match current with
    | some v => .ok v
    | none => .ok (if t.course then .course else first)

/-- Whether at least one event type is allowed. -/
def anyTypeAllowed (t : AllowedEventTypes) : Bool :=
  t.course || t.category || t.group || t.user || t.site

/-- The four type-specific required-field rules all pass. -/
def typeFieldChecksPass (fd : FormState) : Prop :=
  ¬(fd.eventtype = some .course ∧ fd.courseid = 0)
    ∧ ¬(fd.eventtype = some .group ∧ fd.groupcourseid = 0)
    ∧ ¬(fd.eventtype = some .group ∧ fd.groupid = 0)
    ∧ ¬(fd.eventtype = some .category ∧ fd.categoryid = 0)

instance (fd : FormState) : Decidable (typeFieldChecksPass fd) := by
  unfold typeFieldChecksPass
  infer_instance

/-- A form state that passes every validation rule: a user-type event with no
duration. -/
def userFormOk : FormState :=
  { name := "meeting"
    eventtype := some .user
    timestart := ⟨1000000⟩
    categoryid := 0
    courseid := 0
    groupcourseid := 0
    groupid := 0
    description := none
    location := none
    duration := 0
    timedurationuntil := ⟨1000000⟩
    timedurationminutes := ""
    «repeat» := false
    repeats := 1
    repeateditall := 1 }

/-- An offline draft with no stored until-time and a zero minutes column. -/
def draftNoUntil : AddonCalendarOfflineEventDBRecord :=
  { name := "draft"
    timestart := 100
    eventtype := .user
    categoryid := none
    courseid := 0
    groupid := none
    description := none
    location := none
    duration := 0
    timedurationuntil := none
    timedurationminutes := some 0
    «repeat» := none
    repeats := none
    repeateditall := none }

/-- A group-type form with a selected group course but no group. -/
def groupFormNoGroup : FormState :=
  { userFormOk with eventtype := some .group, groupcourseid := 7, groupid := 0 }

/-- A group-type form with neither a group course nor a group selected. -/
def groupFormNoCourse : FormState :=
  { userFormOk with eventtype := some .group, groupcourseid := 0, groupid := 0 }

/-- A course-type form with no course selected, until-time mode, and an
until-time strictly before the start time. -/
def courseFormLateUntil : FormState :=
  { userFormOk with
    eventtype := some .course
    courseid := 0
    duration := 1
    timestart := ⟨2000000⟩
    timedurationuntil := ⟨1000000⟩ }

/-- A valid until-time-mode form: until-time after the start time. -/
def untilFormOk : FormState :=
  { userFormOk with duration := 1, timestart := ⟨1000000⟩, timedurationuntil := ⟨2000000⟩ }

/-- A group-type form with no group course, minutes mode and an empty minutes
field. -/
def groupFormBadMinutes : FormState :=
  { userFormOk with
    eventtype := some .group
    groupcourseid := 0
    groupid := 0
    duration := 2
    timedurationminutes := "" }

/-- A valid minutes-mode form. -/
def minutesFormOk : FormState :=
  { userFormOk with duration := 2, timedurationminutes := "30" }

/-- An online event with a strictly positive duration. -/
def onlineEventSample : AddonCalendarEvent :=
  { name := "lecture"
    timestart := 3600
    timeduration := 1800
    eventtype := .site
    categoryid := none
    courseId := none
    groupid := none
    description := none
    location := none
    repeatid := none
    eventcount := none }

/-- C1 counterexample: editing event 5, `submit` succeeds and `ngOnDestroy`
fires afterwards; `CoreSync.unblockOperation` is called twice for event 5
(once by `returnToList`, once by `ngOnDestroy`), not once as the claim
states. -/
theorem c1_counterexample_unblock_twice :
    (submitThenDestroyUnblockCalls (some 5) none false userFormOk userFormOk
        (.ok true 5)).count 5 = 2
      ∧ ¬(submitThenDestroyUnblockCalls (some 5) none false userFormOk userFormOk
        (.ok true 5)).count 5 = 1 := by
  decide

/-- C1 (amended): in every run in which submit succeeds and `ngOnDestroy`
also fires — before or after `returnToList` — the advisory sync lock for the
edited event id is released exactly twice, once by `returnToList` and once by
`ngOnDestroy` (`this.eventId` is never cleared, so the second `unblockSync`
call is not a no-op guard). -/
theorem c1_unblock_released_twice (eventId : Nat) (eventRepeatId : Option Nat)
    (splitView : Bool) (originalData fd : FormState) (sent : Bool) (newEventId : Nat)
    (hId : eventId ≠ 0) (hValid : validate fd = none) :
    (submitThenDestroyUnblockCalls (some eventId) eventRepeatId splitView originalData fd
        (.ok sent newEventId)).count eventId = 2
      ∧ (destroyThenSubmitUnblockCalls (some eventId) eventRepeatId splitView originalData fd
        (.ok sent newEventId)).count eventId = 2 := by
  unfold submitThenDestroyUnblockCalls destroyThenSubmitUnblockCalls submit unblockSyncCalls
  rw [hValid]
  simp [hId, List.count_append]

/-- Witness for C1's amended theorem at event id 5 with a valid form. -/
theorem c1_unblock_released_twice_witness :
    (submitThenDestroyUnblockCalls (some 5) none true userFormOk userFormOk
        (.ok true 5)).count 5 = 2
      ∧ (destroyThenSubmitUnblockCalls (some 5) none true userFormOk userFormOk
        (.ok true 5)).count 5 = 2 :=
  c1_unblock_released_twice 5 none true userFormOk userFormOk true 5 (by decide) (by decide)

/-- C2 counterexample: loading an offline draft whose stored
`timedurationuntil` is empty sets the form's until field to the formatted
current wall-clock time — the loaded value changes with the clock, so the
field does not equal the record's stored value unchanged. -/
theorem c2_counterexample_until_not_verbatim :
    (loadEventData 1700000000000 (.offline draftNoUntil) userFormOk).timedurationuntil
        = toDatetimeFormat 1700000000000
      ∧ ¬(loadEventData 1700000000000 (.offline draftNoUntil) userFormOk).timedurationuntil
        = (loadEventData 1700000000001 (.offline draftNoUntil) userFormOk).timedurationuntil := by
  decide

/-- C2 (amended): loading a local draft copies `duration` verbatim, copies
`timedurationminutes` when it is non-zero and clears it to the empty string
otherwise, and sets `timedurationuntil` to the formatted stored timestamp when
that is non-zero and to the formatted current time otherwise. -/
theorem c2_offline_duration_fields (nowMs : Nat) (r : AddonCalendarOfflineEventDBRecord)
    (form : FormState) :
    ((loadEventData nowMs (.offline r) form).duration = r.duration)
      ∧ ((loadEventData nowMs (.offline r) form).timedurationminutes =
          if r.timedurationminutes.getD 0 ≠ 0 then toString (r.timedurationminutes.getD 0)
          else "")
      ∧ ((loadEventData nowMs (.offline r) form).timedurationuntil =
          if r.timedurationuntil.getD 0 ≠ 0 then
            toDatetimeFormat (r.timedurationuntil.getD 0 * 1000)
          else toDatetimeFormat nowMs) := by
  refine ⟨rfl, ?_, ?_⟩
  · rcases h : r.timedurationminutes with _ | m
    · simp [loadEventData, h]
    · by_cases hm : m = 0 <;> simp [loadEventData, h, hm]
  · rcases h : r.timedurationuntil with _ | u
    · simp [loadEventData, h, jsOrNat]
    · by_cases hu : u = 0 <;> simp [loadEventData, h, hu, jsOrNat]

/-- C3 counterexample: a Group-type form with an empty group and an empty
group course is blocked with `core.selectacourse`, not with the
group-required message `core.selectagroup`. -/
theorem c3_counterexample_course_error_first :
    validate groupFormNoCourse = some "core.selectacourse"
      ∧ ¬validate groupFormNoCourse = some "core.selectagroup" := by
  decide

/-- C3 (amended): for every form state whose event type is Group, whose group
course is selected and whose group field is empty, submit blocks with
`core.selectagroup`, builds no payload and does not call the remote submit
operation (with an empty group course the earlier rule reports
`core.selectacourse` instead). -/
theorem c3_group_required (fd : FormState) (eventId eventRepeatId : Option Nat)
    (splitView : Bool) (originalData : FormState) (remote : RemoteOutcome)
    (hType : fd.eventtype = some .group) (hCourse : fd.groupcourseid ≠ 0)
    (hGroup : fd.groupid = 0) :
    validate fd = some "core.selectagroup"
      ∧ (submit eventId eventRepeatId splitView originalData fd remote).payload = none
      ∧ (submit eventId eventRepeatId splitView originalData fd remote).remoteCalled = false := by
  have hv : validate fd = some "core.selectagroup" := by
    simp [validate, hType, hCourse, hGroup]
  refine ⟨hv, ?_, ?_⟩ <;> simp [submit, hv]

/-- Witness for C3's amended theorem: group course 7 selected, group empty. -/
theorem c3_group_required_witness :
    validate groupFormNoGroup = some "core.selectagroup"
      ∧ (submit none none false userFormOk groupFormNoGroup .err).payload = none
      ∧ (submit none none false userFormOk groupFormNoGroup .err).remoteCalled = false :=
  c3_group_required groupFormNoGroup none none false userFormOk .err rfl
    (by decide) rfl

/-- C4: loading a confirmed online event with a strictly positive
`timeduration` sets the form's duration mode to until-time (1) and the
until field to the formatted instant `timestart + timeduration` seconds. -/
theorem c4_online_positive_duration (nowMs : Nat) (e : AddonCalendarEvent) (form : FormState)
    (h : 0 < e.timeduration) :
    (loadEventData nowMs (.online e) form).duration = 1
      ∧ (loadEventData nowMs (.online e) form).timedurationuntil
        = toDatetimeFormat ((e.timestart + e.timeduration) * 1000) := by
  simp [loadEventData, h]

/-- Witness for C4 at an event starting at 3600 with duration 1800. -/
theorem c4_online_positive_duration_witness :
    (loadEventData 0 (.online onlineEventSample) userFormOk).duration = 1
      ∧ (loadEventData 0 (.online onlineEventSample) userFormOk).timedurationuntil
        = toDatetimeFormat ((onlineEventSample.timestart + onlineEventSample.timeduration) * 1000) :=
  c4_online_positive_duration 0 onlineEventSample userFormOk (by decide)

/-- C5 counterexample: a form in until-time mode whose until-time precedes the
start time is blocked with `core.selectacourse` (its course field is empty),
not with the invalid-until-time error the claim states for every such form. -/
theorem c5_counterexample_priority :
    courseFormLateUntil.duration = 1
      ∧ convertToTimestamp courseFormLateUntil.timedurationuntil
        < convertToTimestamp courseFormLateUntil.timestart
      ∧ validate courseFormLateUntil = some "core.selectacourse"
      ∧ ¬validate courseFormLateUntil = some "addon.calendar.invalidtimedurationuntil" := by
  decide

/-- C5 (amended): for every form state in until-time mode whose type-specific
required-field rules pass, submit reports the invalid-until-time error exactly
when the until-time converts to a timestamp strictly earlier than the start
timestamp, and passes validation exactly when the until-time does not precede
the start time. -/
theorem c5_until_before_start_blocks (fd : FormState)
    (hDur : fd.duration = 1) (hPass : typeFieldChecksPass fd) :
    (validate fd = some "addon.calendar.invalidtimedurationuntil"
        ↔ convertToTimestamp fd.timedurationuntil < convertToTimestamp fd.timestart)
      ∧ (validate fd = none
        ↔ convertToTimestamp fd.timestart ≤ convertToTimestamp fd.timedurationuntil) := by
  obtain ⟨h1, h2, h3, h4⟩ := hPass
  unfold validate
  rw [if_neg h1, if_neg h2, if_neg h3, if_neg h4]
  rcases lt_or_ge (convertToTimestamp fd.timedurationuntil) (convertToTimestamp fd.timestart)
    with h | h
  · rw [if_pos ⟨hDur, h⟩]
    simp [h, Nat.not_le_of_lt h]
  · rw [if_neg fun hc => absurd h (Nat.not_le_of_lt hc.2)]
    rw [if_neg fun hc => by rw [hDur] at hc; exact absurd hc.1 (by decide)]
    simp [h, Nat.not_lt_of_le h]

/-- Witness for C5's amended theorem at a form whose until-time follows the
start time. -/
theorem c5_until_before_start_blocks_witness :
    (validate untilFormOk = some "addon.calendar.invalidtimedurationuntil"
        ↔ convertToTimestamp untilFormOk.timedurationuntil
          < convertToTimestamp untilFormOk.timestart)
      ∧ (validate untilFormOk = none
        ↔ convertToTimestamp untilFormOk.timestart
          ≤ convertToTimestamp untilFormOk.timedurationuntil) :=
  c5_until_before_start_blocks untilFormOk rfl (by decide)

/-- C6 counterexample: a minutes-mode form whose minutes field is empty is
blocked with `core.selectacourse` (Group type, no group course), not with the
invalid-minutes error the claim states for every such form. -/
theorem c6_counterexample_priority :
    groupFormBadMinutes.duration = 2
      ∧ parseIntJS groupFormBadMinutes.timedurationminutes = none
      ∧ validate groupFormBadMinutes = some "core.selectacourse"
      ∧ ¬validate groupFormBadMinutes = some "addon.calendar.invalidtimedurationminutes" := by
  decide

/-- C6 (amended): for every form state in minutes mode whose type-specific
required-field rules pass, validation succeeds exactly when the minutes field
parses (JavaScript `parseInt`) to an integer greater than or equal to 1, and
the only possible block is the invalid-minutes error. -/
theorem c6_minutes_check (fd : FormState) (hDur : fd.duration = 2)
    (hPass : typeFieldChecksPass fd) :
    (validate fd = none
        ↔ ∃ n : Int, parseIntJS fd.timedurationminutes = some n ∧ 1 ≤ n)
      ∧ (validate fd = none
        ∨ validate fd = some "addon.calendar.invalidtimedurationminutes") := by
  obtain ⟨h1, h2, h3, h4⟩ := hPass
  unfold validate
  rw [if_neg h1, if_neg h2, if_neg h3, if_neg h4]
  rw [if_neg fun hc => by rw [hDur] at hc; exact absurd hc.1 (by decide)]
  rcases hp : parseIntJS fd.timedurationminutes with _ | n
  · rw [if_pos ⟨hDur, rfl⟩]
    simp
  · by_cases hn : n < 1
    · rw [if_pos ⟨hDur, by simp [minutesInvalid, hn]⟩]
      refine ⟨⟨fun hcon => absurd hcon (by simp), ?_⟩, Or.inr rfl⟩
      rintro ⟨m, hm, hm1⟩
      injection hm with hnm
      omega
    · rw [if_neg fun hc => by
        have hb := hc.2
        simp [minutesInvalid] at hb
        omega]
      exact ⟨by simp only [true_iff]; exact ⟨n, rfl, by omega⟩, Or.inl rfl⟩

/-- Witness for C6's amended theorem at a form whose minutes field is "30". -/
theorem c6_minutes_check_witness :
    (validate minutesFormOk = none
        ↔ ∃ n : Int, parseIntJS minutesFormOk.timedurationminutes = some n ∧ 1 ≤ n)
      ∧ (validate minutesFormOk = none
        ∨ validate minutesFormOk = some "addon.calendar.invalidtimedurationminutes") :=
  c6_minutes_check minutesFormOk rfl (by decide)

/-- C7: the submitted payload carries `courseid` exactly for Course events,
`groupcourseid` and `groupid` exactly for Group events, `categoryid` exactly
for Category events, `timedurationuntil` exactly in duration mode 1,
`timedurationminutes` exactly in duration mode 2, and `repeats` exactly when
the repeat flag is set. -/
theorem c7_payload_conditional_fields (fd : FormState) (rid : Option Nat) :
    ((buildPayload fd rid).courseid.isSome = true ↔ fd.eventtype = some .course)
      ∧ ((buildPayload fd rid).groupcourseid.isSome = true ↔ fd.eventtype = some .group)
      ∧ ((buildPayload fd rid).groupid.isSome = true ↔ fd.eventtype = some .group)
      ∧ ((buildPayload fd rid).categoryid.isSome = true ↔ fd.eventtype = some .category)
      ∧ ((buildPayload fd rid).timedurationuntil.isSome = true ↔ fd.duration = 1)
      ∧ ((buildPayload fd rid).timedurationminutes.isSome = true ↔ fd.duration = 2)
      ∧ ((buildPayload fd rid).repeats.isSome = true ↔ fd.«repeat» = true) := by
  unfold buildPayload
  refine ⟨?_, ?_, ?_, ?_, ?_, ?_, ?_⟩ <;> dsimp only <;> split <;> simp_all

/-- C8: when a validation rule fails, `submit` produces only the localized
error modal: no payload is built, the remote operation is not called, no
notification is emitted, the sync lock is not released, and the form state is
unchanged. -/
theorem c8_validation_error_no_side_effects (eventId eventRepeatId : Option Nat)
    (splitView : Bool) (originalData fd : FormState) (remote : RemoteOutcome) (e : String)
    (hErr : validate fd = some e) :
    submit eventId eventRepeatId splitView originalData fd remote =
      { shownError := some e
        payload := none
        remoteCalled := false
        triggeredEvents := []
        unblockCalls := []
        form := fd } := by
  unfold submit
  rw [hErr]

/-- Witness for C8 at a Group-type form missing its group course. -/
theorem c8_validation_error_no_side_effects_witness :
    submit (some 4) none false userFormOk groupFormNoCourse .err =
      { shownError := some "core.selectacourse"
        payload := none
        remoteCalled := false
        triggeredEvents := []
        unblockCalls := []
        form := groupFormNoCourse } :=
  c8_validation_error_no_side_effects (some 4) none false userFormOk groupFormNoCourse .err
    "core.selectacourse" (by decide)

/-- C9: the empty-list guard `courses.length < 0` of `fetchCourses` is false
for every list, and on an empty fetched course list the function faults
(reading `courses[0]` for the `'contacts' in courses[0]` shape test) instead
of storing an empty course list. -/
theorem c9_fetch_courses_empty_faults :
    (∀ l : List CourseRecord, emptyGuardTriggers l = false)
      ∧ (∀ (showAll : Bool) (siteHomeId : Nat), fetchCourses showAll siteHomeId [] = .fault) := by
  constructor
  · intro l
    simp [emptyGuardTriggers]
  · intro showAll siteHomeId
    cases showAll <;> rfl

/-- C10: after a successful load, an empty type control is initialized to
Course whenever the Course type is allowed and to the first allowed option
otherwise; it is never left empty when at least one type is allowed, and with
no allowed type the load fails with the no-permission error.  An already
selected type is kept. -/
theorem c10_type_initialized (t : AllowedEventTypes) :
    (anyTypeAllowed t = true →
        fetchDataTypeInit t none
          = .ok (if t.course then .course else (getEventTypeOptions t).headI))
      ∧ (anyTypeAllowed t = false → fetchDataTypeInit t none = .noPermissionError)
      ∧ (∀ v, fetchDataTypeInit t (some v)
          = if anyTypeAllowed t then .ok v else .noPermissionError) := by
  obtain ⟨c, g, cat, u, s⟩ := t
  cases c <;> cases g <;> cases cat <;> cases u <;> cases s <;> decide

end AddonCalendarEditEvent
